import Mathlib

/-!
Verification of the update orchestrator in `system/updated/updated.py`
(the casync-based updater daemon).

The shallow embedding below translates the functions of `updated.py` into
Lean definitions.  Filesystem state is modelled explicitly: the finalized
directory (with its `.overlay_consistent` sentinel file), the casync staging
directory `CASYNC_PATH` and the casync temp directory `CASYNC_TMPDIR`.
Directory trees are abstracted by the data the updater reads from them: the
build-metadata file (when present) plus an opaque list of remaining file
names.  Exceptions raised by Python code are modelled with `Except` /
explicit failure flags carrying the state at the raise point.
-/

/-- Metadata of an openpilot build, `OpenpilotMetadata` in
`system/version.py` (that file is not part of the excerpt; the fields are
the ones `updated.py` and its tests read: version, release notes and git
commit; the remaining provenance fields are never consulted by the
updater). -/
structure OpenpilotMetadata where
  version : String
  release_notes : String
  git_commit : String
  deriving DecidableEq, Repr

/-- `BuildMetadata` in `system/version.py`: the channel name plus the
openpilot metadata.  This is the build identity the updater compares. -/
structure BuildMetadata where
  channel : String
  openpilot : OpenpilotMetadata
  deriving DecidableEq, Repr

/-- `check_update_available(current_directory, other_metadata)` from
`updated.py` lines 92-95, translated verbatim.  The Python reads
`build_metadata = get_build_metadata(current_directory)`; the embedding
passes that directory's metadata directly as `build_metadata`.  Note the
source really compares `build_metadata.channel != build_metadata.channel`
(a self-comparison), not the other metadata's channel. -/
def check_update_available (build_metadata other_metadata : BuildMetadata) : Bool :=
  (build_metadata.channel != build_metadata.channel) ||
  (build_metadata.openpilot.git_commit != other_metadata.openpilot.git_commit)

/-- The identity-equality relation the spec prescribes ("two identities are
equal iff channel and commit match"); used to compare the code's behaviour
against the specified one. -/
def spec_same_release (a b : BuildMetadata) : Prop :=
  a.channel = b.channel ∧ a.openpilot.git_commit = b.openpilot.git_commit

instance (a b : BuildMetadata) : Decidable (spec_same_release a b) := by
  unfold spec_same_release; infer_instance

/- ### Filesystem model -/

/-- A directory tree, abstracted by what the updater reads from it: the
build-metadata file (`none` when the directory has no metadata file, in
which case `get_build_metadata` raises) and an opaque list of the remaining
file names. -/
structure DirTree where
  metadata : Option BuildMetadata
  payload : List String
  deriving DecidableEq, Repr

/-- A fresh empty directory (as created by `mkdir`). -/
def emptyTree : DirTree := { metadata := none, payload := [] }

/-- The `FINALIZED` directory: its tree plus the presence of the
`.overlay_consistent` sentinel file inside it. -/
structure FinalizedDir where
  content : DirTree
  consistent : Bool
  deriving DecidableEq, Repr

/-- The filesystem state the updater mutates: the finalized directory
(`none` when absent), the casync staging directory `CASYNC_PATH` (`none`
when absent) and whether `CASYNC_TMPDIR` exists. -/
structure Fs where
  finalized : Option FinalizedDir
  casyncPath : Option DirTree
  casyncTmp : Bool
  deriving DecidableEq, Repr

/-- `get_consistent_flag(FINALIZED)` (imported from
`selfdrive/updated/tests/test_base.py`, not part of the excerpt).
Modelled from the spec: `is_ready(finalized_dir)` "returns the current
marker state" — the `.overlay_consistent` sentinel is present iff the
finalized directory exists and contains it. -/
def get_consistent_flag (fs : Fs) : Bool :=
  match fs.finalized with
  | some f => f.consistent
  | none => false

/-- `get_build_metadata(FINALIZED)`: reads the metadata file of the
finalized directory; `none` models the exception raised when the directory
or its metadata file is missing. -/
def finalized_build_metadata (fs : Fs) : Option BuildMetadata :=
  match fs.finalized with
  | some f => f.content.metadata
  | none => none

/-- State effect of `set_consistent_flag(consistent)` (`updated.py` lines
49-56): touch or unlink `.overlay_consistent` inside `FINALIZED`.
`touch` on a missing parent directory raises (`.error`); `unlink` with
`missing_ok=True` is a no-op when the directory is absent. -/
def set_consistent_flag (consistent : Bool) (fs : Fs) : Except Fs Fs :=
  match fs.finalized with
  | some f => .ok { fs with finalized := some { f with consistent := consistent } }
  | none => if consistent then .error fs else .ok fs

/-- State effect of `finalize_update()` (`updated.py` lines 110-119) with
explicit failure injection: `rmFails` makes the `shutil.rmtree(FINALIZED)`
call raise partway, `copyFails` makes the `shutil.copytree` call raise
partway.  An `.error` result carries the filesystem state at the raise
point (partial file contents are abstracted — only the sentinel and
directory existence are tracked exactly; `rmtree`/`copytree` never create
the sentinel since the staging tree does not contain one). -/
def finalize_update (rmFails copyFails : Bool) (fs : Fs) : Except Fs Fs := do
  let fs1 ← set_consistent_flag false fs
  let fs2 ←
    match fs1.finalized with
    | some f =>
      if rmFails then Except.error { fs1 with finalized := some { f with consistent := false } }
      else Except.ok { fs1 with finalized := none }
    | none => Except.ok fs1
  match fs2.casyncPath with
  | none => Except.error fs2
  | some t =>
    if copyFails then Except.error { fs2 with finalized := some { content := t, consistent := false } }
    else set_consistent_flag true { fs2 with finalized := some { content := t, consistent := false } }

/- ### Event-trace model of `finalize_update` -/

/-- The primitive filesystem events `finalize_update` performs, in order:
`os.sync`, unlinking the sentinel, `shutil.rmtree(FINALIZED)`, the
`shutil.copytree(CASYNC_PATH, FINALIZED, symlinks=True)` copy, and touching
the sentinel. -/
inductive FsEvent
  | sync
  | clearMarker
  | rmFinalized
  | copyStaging
  | setMarker
  deriving DecidableEq, Repr

/-- Event trace of `set_consistent_flag(consistent)` (`updated.py` lines
49-56): `os.sync()`, then touch or unlink the sentinel, then `os.sync()`. -/
def set_consistent_flag_events (consistent : Bool) : List FsEvent :=
  [.sync] ++ (if consistent then [.setMarker] else [.clearMarker]) ++ [.sync]

/-- Event trace of `finalize_update()` (`updated.py` lines 110-119):
clear the sentinel, remove the old finalized directory when it exists,
copy the staging tree, set the sentinel.  `finalized_exists` is the
`os.path.exists(FINALIZED)` test at line 114. -/
def finalize_update_events (finalized_exists : Bool) : List FsEvent :=
  set_consistent_flag_events false ++
  (if finalized_exists then [.rmFinalized] else []) ++
  [.copyStaging] ++
  set_consistent_flag_events true

/-- Sentinel-file presence after running a list of events from marker state
`m`: `clearMarker` removes it, `setMarker` creates it, the other events
never touch it. -/
def markerAfter (m : Bool) : List FsEvent → Bool
  | [] => m
  | e :: rest =>
    markerAfter (match e with | .clearMarker => false | .setMarker => true | _ => m) rest

/- ### Manifest and `download_update` -/

/-- A manifest entry as `download_update` reads it (`updated.py` lines
105-107).  `type` is `none` when the `"type"` key is absent (the code tests
`"type" in entry` first); `path` and `caidx` are `none` when the
corresponding key (`entry["path"]`, `entry["casync"]["caidx"]`) is absent,
in which case the unguarded dictionary access raises `KeyError`. -/
structure ManifestEntry where
  type : Option String
  path : Option String
  caidx : Option String
  deriving DecidableEq, Repr

/-- An invocation of `casync extract <caidx> <dest> --seed=<seed>`
(`updated.py` line 107). -/
structure ExtractCall where
  caidx : String
  dest : String
  seed : String
  deriving DecidableEq, Repr

/-- The staging path `CASYNC_PATH` = `STAGING_ROOT / "casync"`
(`updated.py` line 44, with the default `STAGING_ROOT`). -/
def CASYNC_PATH : String := "/data/safe_staging/casync"

/-- `BASEDIR` (from `common/basedir.py`, not part of the excerpt).
Modelled from the spec: the currently running installation root, used as
the extraction seed. -/
def BASEDIR : String := "/data/openpilot"

/-- Result of `download_update`: the filesystem afterwards, the extract
calls issued (the last one possibly the failing one), and `ok = false` when
a Python exception was raised (a `KeyError` on a missing manifest key or a
failing `casync extract`; `run_cmd` is `subprocess.check_output`, modelled
from the spec: "`ExtractionFailed` (delta-sync call non-zero exit or
missing output)" raises out of the call). -/
structure DownloadResult where
  fs : Fs
  calls : List ExtractCall
  ok : Bool
  deriving DecidableEq, Repr

/-- The manifest loop of `download_update` (`updated.py` lines 105-107).
`extractResult call` is the behaviour of the external
`casync extract` process: `some t` means it succeeds and leaves tree `t` at
`CASYNC_PATH`, `none` means it exits non-zero (so `run_cmd` raises). -/
def run_manifest (extractResult : ExtractCall → Option DirTree) :
    List ManifestEntry → Fs → List ExtractCall → DownloadResult
  | [], fs, acc => { fs := fs, calls := acc, ok := true }
  | e :: rest, fs, acc =>
    if e.type == some "path" then
      match e.path with
      | none => { fs := fs, calls := acc, ok := false }
      | some p =>
        if p == "/data/openpilot" then
          match e.caidx with
          | none => { fs := fs, calls := acc, ok := false }
          | some c =>
            let call : ExtractCall := { caidx := c, dest := CASYNC_PATH, seed := BASEDIR }
            match extractResult call with
            | none => { fs := fs, calls := acc ++ [call], ok := false }
            | some t =>
              run_manifest extractResult rest { fs with casyncPath := some t } (acc ++ [call])
        else run_manifest extractResult rest fs acc
    else run_manifest extractResult rest fs acc

/-- `download_update(manifest)` (`updated.py` lines 98-107): create
`CASYNC_TMPDIR` and `CASYNC_PATH` with `mkdir(exist_ok=True)` (existing
contents are kept), then run the manifest loop. -/
def download_update (extractResult : ExtractCall → Option DirTree)
    (manifest : List ManifestEntry) (fs : Fs) : DownloadResult :=
  let fs' : Fs := { fs with casyncTmp := true,
                            casyncPath := some (fs.casyncPath.getD emptyTree) }
  run_manifest extractResult manifest fs' []

/- ### The orchestrator cycle -/

/-- `UpdaterState` (`updated.py` lines 59-64). -/
inductive UpdaterState
  | IDLE
  | CHECKING
  | DOWNLOADING
  | FINALIZING
  | FAILED
  deriving DecidableEq, Repr

/-- `UserRequest` (from `selfdrive/updated/updated.py`, not part of the
excerpt).  Modelled from the spec: the user-request signal has a "check
now" form and a "download now" form, plus the reset value `NONE`; the core
only tests for `CHECK`. -/
inductive UserRequest
  | NONE
  | CHECK
  | DOWNLOAD
  deriving DecidableEq, Repr

/-- One `set_status_params` publish (`updated.py` lines 67-71): the state
string plus the `UpdaterFetchAvailable` and `UpdateAvailable` booleans. -/
structure Publish where
  state : UpdaterState
  update_fetch_available : Bool
  update_ready : Bool
  deriving DecidableEq, Repr

/-- `set_status_params(state, update_available, update_ready)` with all
three arguments explicit. -/
def set_status_params (state : UpdaterState) (update_available update_ready : Bool) :
    Publish :=
  { state := state, update_fetch_available := update_available, update_ready := update_ready }

/-- `set_status_params(state)` relying on the Python defaults
`update_available = False, update_ready = False`. -/
def set_status_params_default (state : UpdaterState) : Publish :=
  set_status_params state false false

/-- The slice of the parameter store the orchestrator writes (besides the
status triple, which is modelled as the `Publish` list):
`UpdaterTargetBranch`, and the current/new channel description params
written by `set_current_channel_params` / `set_new_channel_params`
(abstracted by the metadata they render). -/
structure Params where
  updaterTargetBranch : Option String
  updaterCurrentDescription : Option BuildMetadata
  updaterNewDescription : Option BuildMetadata
  deriving DecidableEq, Repr

/-- The cycle's environment: everything the loop body reads that is not in
`Params`/`Fs`.  `remote` is `get_remote_channel_data(channel)` (`updated.py`
lines 32-38): it returns `(metadata, manifest)` on success and
`(None, None)` on any exception, so its image is exactly
`Option (BuildMetadata × manifest)`; the test
`remote_build_metadata is not None or remote_manifest is not None` at line
148 coincides with `isSome` on that image.  `basedirMetadata` is
`get_build_metadata()` of the running installation.  The AGNOS firmware
co-update step (line 164-165) is hardware-specific and touches none of the
modelled state, so it does not appear. -/
structure CycleEnv where
  basedirMetadata : BuildMetadata
  remote : String → Option (BuildMetadata × List ManifestEntry)
  userRequest : UserRequest
  extractResult : ExtractCall → Option DirTree
  rmFails : Bool
  copyFails : Bool

/-- Everything one iteration of the `while True` loop produces: the target
channel it resolved, the status publishes in order, the parameter store and
filesystem afterwards, the extract calls issued, and whether an uncaught
Python exception escaped the loop body (`crashed`). -/
structure CycleResult where
  targetChannel : String
  pubs : List Publish
  params : Params
  fs : Fs
  extractCalls : List ExtractCall
  crashed : Bool
  deriving Repr

/-- One iteration of the `while True` loop of `main()` (`updated.py` lines
128-178), translated statement by statement.  The
`if update_ready and not check_update_available(FINALIZED, ...)` test at
line 151 short-circuits, so `get_build_metadata(FINALIZED)` is only read
(and can only raise) when the consistent flag is set. -/
def cycle (env : CycleEnv) (params0 : Params) (fs0 : Fs) : CycleResult :=
  let bm := env.basedirMetadata
  let resolved :=
    match params0.updaterTargetBranch with
    | some t => (t, params0)
    | none => (bm.channel, { params0 with updaterTargetBranch := some bm.channel })
  let target_channel := resolved.1
  let params1 := resolved.2
  let user_requested_check := env.userRequest == UserRequest.CHECK
  let pub_checking := set_status_params_default UpdaterState.CHECKING
  let update_ready := get_consistent_flag fs0
  let params2 := { params1 with updaterCurrentDescription := some bm }
  match env.remote target_channel with
  | none =>
    { targetChannel := target_channel,
      pubs := [pub_checking, set_status_params UpdaterState.FAILED false false],
      params := params2, fs := fs0, extractCalls := [], crashed := false }
  | some (remote_build_metadata, remote_manifest) =>
    let ua0 := check_update_available bm remote_build_metadata
    let suppressE : Except Unit Bool :=
      if update_ready then
        match finalized_build_metadata fs0 with
        | some fm => .ok (!check_update_available fm remote_build_metadata)
        | none => .error ()
      else .ok false
    match suppressE with
    | .error _ =>
      { targetChannel := target_channel, pubs := [pub_checking],
        params := params2, fs := fs0, extractCalls := [], crashed := true }
    | .ok suppress =>
      let update_available := if suppress then false else ua0
      let pub_idle1 := set_status_params UpdaterState.IDLE update_available update_ready
      if update_available && !user_requested_check then
        let pub_dl := set_status_params_default UpdaterState.DOWNLOADING
        let dl := download_update env.extractResult remote_manifest fs0
        if !dl.ok then
          { targetChannel := target_channel,
            pubs := [pub_checking, pub_idle1, pub_dl],
            params := params2, fs := dl.fs, extractCalls := dl.calls, crashed := true }
        else
          let pub_fin := set_status_params_default UpdaterState.FINALIZING
          match finalize_update env.rmFails env.copyFails dl.fs with
          | .error fsE =>
            { targetChannel := target_channel,
              pubs := [pub_checking, pub_idle1, pub_dl, pub_fin],
              params := params2, fs := fsE, extractCalls := dl.calls, crashed := true }
          | .ok fs2 =>
            match finalized_build_metadata fs2 with
            | none =>
              { targetChannel := target_channel,
                pubs := [pub_checking, pub_idle1, pub_dl, pub_fin],
                params := params2, fs := fs2, extractCalls := dl.calls, crashed := true }
            | some nbm =>
              let params3 := { params2 with updaterNewDescription := some nbm }
              let update_ready2 := get_consistent_flag fs2
              { targetChannel := target_channel,
                pubs := [pub_checking, pub_idle1, pub_dl, pub_fin,
                         set_status_params UpdaterState.IDLE false update_ready2],
                params := params3, fs := fs2, extractCalls := dl.calls, crashed := false }
      else
        { targetChannel := target_channel,
          pubs := [pub_checking, pub_idle1, pub_idle1],
          params := params2, fs := fs0, extractCalls := [], crashed := false }

/- ### Claim C1 -/

/-- Claim C1: the claim states that `check_update_available` is false iff the
two identities' (channel, commit) pairs are equal.  The code at line 94
compares `build_metadata.channel` against itself, so the channel never
influences the result: two builds on different channels with the same
commit are reported as not-an-update, refuting the claimed equivalence at
this concrete input (the spec's design notes flag exactly this
self-referential comparison as a latent bug, and name the (channel, commit)
rule the intended behaviour). -/
theorem check_update_available_ignores_channel :
    check_update_available
      { channel := "release3",
        openpilot := { version := "0.9.7", release_notes := "a", git_commit := "commit123" } }
      { channel := "nightly",
        openpilot := { version := "0.9.8", release_notes := "b", git_commit := "commit123" } } = false ∧
    ¬ spec_same_release
      { channel := "release3",
        openpilot := { version := "0.9.7", release_notes := "a", git_commit := "commit123" } }
      { channel := "nightly",
        openpilot := { version := "0.9.8", release_notes := "b", git_commit := "commit123" } } := by
  decide

/- ### Claim C2 -/

/-- Claim C2: `finalize_update` performs, in order: clear the consistency
marker (with a flush on either side), remove the old finalized directory
when present, copy the staging tree, flush, set the marker, flush again;
and at every point where the finalized directory is being removed or
written (`rmFinalized` / `copyStaging`), the marker is absent, whatever it
was before the call. -/
theorem finalize_update_event_order (finalized_exists : Bool) :
    finalize_update_events finalized_exists =
      [.sync, .clearMarker, .sync] ++
      (if finalized_exists then [.rmFinalized] else []) ++
      [.copyStaging, .sync, .setMarker, .sync] ∧
    ∀ (m0 : Bool) (i : Nat),
      ((finalize_update_events finalized_exists).get? i = some .rmFinalized ∨
       (finalize_update_events finalized_exists).get? i = some .copyStaging) →
      markerAfter m0 ((finalize_update_events finalized_exists).take i) = false := by
  cases finalized_exists <;>
    refine ⟨rfl, ?_⟩ <;>
    intro m0 i h <;>
    rcases i with _ | _ | _ | _ | _ | _ | _ | _ | i <;>
    simp [finalize_update_events, set_consistent_flag_events, markerAfter,
      List.get?] at h ⊢

/-- Witness for claim C2 at a concrete point: with the finalized directory
present and the marker initially set, the event at index 3 is the removal
of the finalized directory, and the marker is already absent there. -/
theorem finalize_update_event_order_witness :
    ((finalize_update_events true).get? 3 = some FsEvent.rmFinalized ∨
     (finalize_update_events true).get? 3 = some FsEvent.copyStaging) ∧
    markerAfter true ((finalize_update_events true).take 3) = false :=
  ⟨Or.inl (by decide),
   (finalize_update_event_order true).2 true 3 (Or.inl (by decide))⟩

/- ### Claim C3 -/

/-- Claim C3: whenever `finalize_update` raises partway (directory removal
or tree copy failing, staging directory missing, ...), the filesystem state
at the raise point has the consistency marker absent, so `is_ready`
(`get_consistent_flag`) reports not-ready. -/
theorem finalize_update_failure_not_ready
    (rmFails copyFails : Bool) (fs e : Fs)
    (h : finalize_update rmFails copyFails fs = .error e) :
    get_consistent_flag e = false := by
  obtain ⟨fin, cp, tmp⟩ := fs
  cases fin <;> cases cp <;> cases rmFails <;> cases copyFails <;>
    simp [finalize_update, set_consistent_flag, Except.bind, bind] at h <;>
    (subst h; simp [get_consistent_flag])


/-- Concrete fixture: the running build's metadata. -/
def bmCurrent : BuildMetadata :=
  { channel := "release3"
    openpilot := { version := "0.1.2", release_notes := "r1 notes", git_commit := "commit1" } }

/-- Concrete fixture: a newer remote build on the same channel. -/
def bmRemote : BuildMetadata :=
  { channel := "release3"
    openpilot := { version := "0.1.3", release_notes := "r2 notes", git_commit := "commit2" } }

/-- Concrete fixture: a manifest entry of type `path` targeting the
installation root. -/
def entryRoot : ManifestEntry :=
  { type := some "path", path := some "/data/openpilot", caidx := some "release3.caidx" }

/-- Concrete fixture: the tree `casync extract` produces for `bmRemote`. -/
def treeRemote : DirTree := { metadata := some bmRemote, payload := ["release files"] }

/-- Concrete fixture: an empty parameter store (first run). -/
def paramsEmpty : Params :=
  { updaterTargetBranch := none, updaterCurrentDescription := none, updaterNewDescription := none }

/-- Concrete fixture: a filesystem before any update was ever staged. -/
def fsFresh : Fs := { finalized := none, casyncPath := none, casyncTmp := false }

/-- Concrete fixture for the finalize-failure witness: a consistent
finalized release is on disk and a staging tree is present. -/
def fsStaged : Fs :=
  { finalized := some { content := { metadata := some bmCurrent, payload := ["old"] }, consistent := true }
    casyncPath := some treeRemote
    casyncTmp := true }

/-- The state `finalize_update` leaves behind when `shutil.copytree` fails
partway on `fsStaged`: marker cleared, finalized contents partial. -/
def fsStagedCopyFailed : Fs :=
  { finalized := some { content := treeRemote, consistent := false }
    casyncPath := some treeRemote
    casyncTmp := true }

/-- Witness for claim C3 at a concrete input: on `fsStaged` with the copy
step failing, `finalize_update` raises with the marker absent. -/
theorem finalize_update_failure_not_ready_witness :
    finalize_update false true fsStaged = .error fsStagedCopyFailed ∧
    get_consistent_flag fsStagedCopyFailed = false :=
  ⟨rfl, finalize_update_failure_not_ready false true fsStaged fsStagedCopyFailed rfl⟩

/- ### Claim C9 -/

/-- Claim C9: every cycle resolves the target channel from the persisted
`UpdaterTargetBranch` parameter, defaulting to the running build's channel
exactly when no persisted value exists; after the cycle the persisted value
is always present and equals the resolved target (so it is written back on
first run and left unchanged otherwise, and every subsequent cycle reads a
non-absent target). -/
theorem cycle_resolves_target_channel (env : CycleEnv) (params0 : Params) (fs0 : Fs) :
    (cycle env params0 fs0).targetChannel =
      params0.updaterTargetBranch.getD env.basedirMetadata.channel ∧
    (cycle env params0 fs0).params.updaterTargetBranch =
      some (params0.updaterTargetBranch.getD env.basedirMetadata.channel) := by
  unfold cycle
  cases hp : params0.updaterTargetBranch <;>
    simp only [hp, Option.getD] <;>
    (repeat' split) <;>
    (try simp_all)

/- ### Claim C10 -/

/-- Claim C10: every publish whose state is not `Idle` (`Checking`,
`Downloading`, `Finalizing`, and also `Failed`, which passes both flags
explicitly) carries `update_fetch_available = false` and
`update_ready = false`, because `set_status_params` defaults both flags to
false — in particular `update_ready` reads false while a download or
finalize is in progress even when a consistency-marked finalized tree
exists on disk. -/
theorem cycle_nonidle_flags_false (env : CycleEnv) (params0 : Params) (fs0 : Fs) :
    ∀ p ∈ (cycle env params0 fs0).pubs, p.state ≠ UpdaterState.IDLE →
      p.update_fetch_available = false ∧ p.update_ready = false := by
  unfold cycle
  cases hp : params0.updaterTargetBranch <;> simp only [hp] <;>
    split <;> (try split) <;> (try split) <;> (try split) <;> (try split) <;>
    (try split) <;> (try split) <;>
    intro p hpub hs <;>
    fin_cases hpub <;>
    simp_all [set_status_params, set_status_params_default]

/-- Concrete fixture for the claim-C10 witness: a valid consistency-marked
finalized tree (an older build) is on disk while a newer remote build
triggers a background download. -/
def fsReadyOld : Fs :=
  { finalized := some { content := { metadata := some bmCurrent, payload := ["old"] }, consistent := true }
    casyncPath := none
    casyncTmp := false }

/-- Environment for the claim-C10 witness: remote serves `bmRemote`,
extraction succeeds, background poll. -/
def envDownload : CycleEnv :=
  { basedirMetadata := bmCurrent
    remote := fun _ => some (bmRemote, [entryRoot])
    userRequest := UserRequest.NONE
    extractResult := fun _ => some treeRemote
    rmFails := false
    copyFails := false }

/-- Witness for claim C10 at a concrete input: in a background download
cycle with a consistency-marked finalized tree on disk, the `Downloading`
publish occurs and both its flags are false. -/
theorem cycle_nonidle_flags_false_witness :
    ({ state := UpdaterState.DOWNLOADING, update_fetch_available := false,
       update_ready := false } : Publish) ∈ (cycle envDownload paramsEmpty fsReadyOld).pubs ∧
    ({ state := UpdaterState.DOWNLOADING, update_fetch_available := false,
       update_ready := false } : Publish).update_fetch_available = false ∧
    ({ state := UpdaterState.DOWNLOADING, update_fetch_available := false,
       update_ready := false } : Publish).update_ready = false :=
  ⟨by decide,
   cycle_nonidle_flags_false envDownload paramsEmpty fsReadyOld _ (by decide) (by decide)⟩

/- ### Claim C5 -/

/-- Claim C5: when `get_remote_channel_data` fails for the resolved target
channel (all transport/HTTP/parse errors collapse into the both-`None`
return, here `none`), the cycle publishes exactly `Checking` followed by
`Failed` with both flags false, touches neither the filesystem nor the
staging area (no extract calls), and no exception escapes the loop body. -/
theorem cycle_remote_failure (env : CycleEnv) (params0 : Params) (fs0 : Fs)
    (h : env.remote (params0.updaterTargetBranch.getD env.basedirMetadata.channel) = none) :
    (cycle env params0 fs0).pubs =
      [set_status_params_default UpdaterState.CHECKING,
       set_status_params UpdaterState.FAILED false false] ∧
    (cycle env params0 fs0).fs = fs0 ∧
    (cycle env params0 fs0).extractCalls = [] ∧
    (cycle env params0 fs0).crashed = false := by
  unfold cycle
  cases hp : params0.updaterTargetBranch <;> simp_all [Option.getD]

/-- Environment for the claim-C5 witness: the remote API is unreachable. -/
def envRemoteDown : CycleEnv :=
  { basedirMetadata := bmCurrent
    remote := fun _ => none
    userRequest := UserRequest.NONE
    extractResult := fun _ => none
    rmFails := false
    copyFails := false }

/-- Witness for claim C5 at a concrete input: with the remote unreachable,
the cycle publishes Checking then Failed (both flags false) and mutates
nothing. -/
theorem cycle_remote_failure_witness :
    envRemoteDown.remote
      (paramsEmpty.updaterTargetBranch.getD envRemoteDown.basedirMetadata.channel) = none ∧
    ((cycle envRemoteDown paramsEmpty fsFresh).pubs =
      [set_status_params_default UpdaterState.CHECKING,
       set_status_params UpdaterState.FAILED false false] ∧
     (cycle envRemoteDown paramsEmpty fsFresh).fs = fsFresh ∧
     (cycle envRemoteDown paramsEmpty fsFresh).extractCalls = [] ∧
     (cycle envRemoteDown paramsEmpty fsFresh).crashed = false) :=
  ⟨rfl, cycle_remote_failure envRemoteDown paramsEmpty fsFresh rfl⟩

/- ### Claim C6 -/

/-- Claim C6: in a cycle whose finalized tree is consistency-marked and
whose finalized identity equals the remote target's identity (channel and
commit both match, the spec's identity relation), `update_available` is
forced to false — both `Idle` publishes carry
`update_fetch_available = false` — and no download happens, whatever the
running build's identity is. -/
theorem cycle_ready_suppression (env : CycleEnv) (params0 : Params) (fs0 : Fs)
    (rbm : BuildMetadata) (man : List ManifestEntry) (fm : BuildMetadata)
    (hr : env.remote (params0.updaterTargetBranch.getD env.basedirMetadata.channel) = some (rbm, man))
    (hready : get_consistent_flag fs0 = true)
    (hfm : finalized_build_metadata fs0 = some fm)
    (hsame : spec_same_release fm rbm) :
    (cycle env params0 fs0).pubs =
      [set_status_params_default UpdaterState.CHECKING,
       set_status_params UpdaterState.IDLE false true,
       set_status_params UpdaterState.IDLE false true] ∧
    (cycle env params0 fs0).extractCalls = [] ∧
    (cycle env params0 fs0).fs = fs0 ∧
    (cycle env params0 fs0).crashed = false := by
  obtain ⟨hch, hco⟩ := hsame
  have hcheck : check_update_available fm rbm = false := by
    simp [check_update_available, hco]
  unfold cycle
  cases hp : params0.updaterTargetBranch <;>
    simp_all [Option.getD, hcheck]

/-- Concrete fixture for the claim-C6 witness: the remote target is already
staged and consistency-marked in the finalized directory, while the running
build (`bmCurrent`) differs from the remote (`bmRemote`). -/
def fsReadyNew : Fs :=
  { finalized := some { content := treeRemote, consistent := true }
    casyncPath := some treeRemote
    casyncTmp := true }

/-- Witness for claim C6 at a concrete input: remote identity `bmRemote`
differs from the running build `bmCurrent`, yet because the finalized tree
already carries `bmRemote`, both `Idle` publishes report
`update_fetch_available = false` and nothing is downloaded. -/
theorem cycle_ready_suppression_witness :
    envDownload.remote
      (paramsEmpty.updaterTargetBranch.getD envDownload.basedirMetadata.channel) =
        some (bmRemote, [entryRoot]) ∧
    get_consistent_flag fsReadyNew = true ∧
    finalized_build_metadata fsReadyNew = some bmRemote ∧
    spec_same_release bmRemote bmRemote ∧
    ¬ spec_same_release bmCurrent bmRemote ∧
    ((cycle envDownload paramsEmpty fsReadyNew).pubs =
      [set_status_params_default UpdaterState.CHECKING,
       set_status_params UpdaterState.IDLE false true,
       set_status_params UpdaterState.IDLE false true] ∧
     (cycle envDownload paramsEmpty fsReadyNew).extractCalls = [] ∧
     (cycle envDownload paramsEmpty fsReadyNew).fs = fsReadyNew ∧
     (cycle envDownload paramsEmpty fsReadyNew).crashed = false) :=
  ⟨rfl, rfl, rfl, by decide, by decide,
   cycle_ready_suppression envDownload paramsEmpty fsReadyNew bmRemote [entryRoot] bmRemote
     rfl rfl rfl (by decide)⟩

/- ### Claim C8 -/

/-- The `update_available` flag the check phase computes
(`updated.py` lines 149-152): the running build differs from the remote,
except that a consistency-marked finalized tree matching the remote (by
`check_update_available`) forces it to false. -/
def computed_update_available (bm rbm : BuildMetadata) (fs : Fs) : Bool :=
  if get_consistent_flag fs then
    match finalized_build_metadata fs with
    | some fm => if !check_update_available fm rbm then false else check_update_available bm rbm
    | none => check_update_available bm rbm
  else check_update_available bm rbm

/-- Claim C8: a cycle triggered by a user "check only" request with a
reachable remote performs the check but skips the download: the filesystem
(staging and finalized directories, consistency marker) is left exactly as
it was, no extract call is issued, no exception escapes, the cycle
publishes `Checking` then twice `Idle` with the computed flags, and
repeating the cycle on the resulting state republishes exactly the same
flags.  (`hread` rules out the degenerate state of a consistency-marked
finalized directory with no readable metadata file, on which the check
itself raises.) -/
theorem cycle_check_only (env : CycleEnv) (params0 : Params) (fs0 : Fs)
    (hreq : env.userRequest = UserRequest.CHECK)
    (rbm : BuildMetadata) (man : List ManifestEntry)
    (hr : env.remote (params0.updaterTargetBranch.getD env.basedirMetadata.channel) = some (rbm, man))
    (hread : get_consistent_flag fs0 = true → (finalized_build_metadata fs0).isSome) :
    (cycle env params0 fs0).fs = fs0 ∧
    (cycle env params0 fs0).extractCalls = [] ∧
    (cycle env params0 fs0).crashed = false ∧
    (cycle env params0 fs0).pubs =
      [set_status_params_default UpdaterState.CHECKING,
       set_status_params UpdaterState.IDLE
         (computed_update_available env.basedirMetadata rbm fs0) (get_consistent_flag fs0),
       set_status_params UpdaterState.IDLE
         (computed_update_available env.basedirMetadata rbm fs0) (get_consistent_flag fs0)] ∧
    (cycle env (cycle env params0 fs0).params (cycle env params0 fs0).fs).pubs =
      (cycle env params0 fs0).pubs := by
  cases hready2 : get_consistent_flag fs0 with
  | false =>
    unfold cycle
    cases hp : params0.updaterTargetBranch <;>
      simp_all [Option.getD, computed_update_available, hreq]
  | true =>
    have hsome := hread hready2
    obtain ⟨fm, hfm⟩ := Option.isSome_iff_exists.mp hsome
    unfold cycle
    cases hp : params0.updaterTargetBranch <;>
      simp_all [Option.getD, computed_update_available, hreq, hfm]

/-- Environment for the claim-C8 witness: a newer remote build is
available but the user only asked for a check. -/
def envCheckOnly : CycleEnv :=
  { basedirMetadata := bmCurrent
    remote := fun _ => some (bmRemote, [entryRoot])
    userRequest := UserRequest.CHECK
    extractResult := fun _ => none
    rmFails := false
    copyFails := false }

/-- Witness for claim C8 at a concrete input: an update is available
remotely, the check-only cycle reports it without downloading, and
repeating the cycle republishes the same flags. -/
theorem cycle_check_only_witness :
    envCheckOnly.userRequest = UserRequest.CHECK ∧
    ((cycle envCheckOnly paramsEmpty fsFresh).fs = fsFresh ∧
     (cycle envCheckOnly paramsEmpty fsFresh).extractCalls = [] ∧
     (cycle envCheckOnly paramsEmpty fsFresh).crashed = false ∧
     (cycle envCheckOnly paramsEmpty fsFresh).pubs =
       [set_status_params_default UpdaterState.CHECKING,
        set_status_params UpdaterState.IDLE
          (computed_update_available envCheckOnly.basedirMetadata bmRemote fsFresh)
          (get_consistent_flag fsFresh),
        set_status_params UpdaterState.IDLE
          (computed_update_available envCheckOnly.basedirMetadata bmRemote fsFresh)
          (get_consistent_flag fsFresh)] ∧
     (cycle envCheckOnly (cycle envCheckOnly paramsEmpty fsFresh).params
        (cycle envCheckOnly paramsEmpty fsFresh).fs).pubs =
       (cycle envCheckOnly paramsEmpty fsFresh).pubs) :=
  ⟨rfl, cycle_check_only envCheckOnly paramsEmpty fsFresh rfl bmRemote [entryRoot] rfl (by decide)⟩

/- ### Claim C4 -/

/-- Environment for claim C4: the remote offers a new build but every
`casync extract` call fails (non-zero exit, so `run_cmd` raises). -/
def envExtractFail : CycleEnv :=
  { basedirMetadata := bmCurrent
    remote := fun _ => some (bmRemote, [entryRoot])
    userRequest := UserRequest.NONE
    extractResult := fun _ => none
    rmFails := false
    copyFails := false }

/-- Claim C4, evaluated at the failing input: in a background cycle whose
extraction fails, the exception escapes the loop body uncaught
(`crashed = true`) and the `Failed` state is never published — the publish
trace stops at `Downloading` — while the finalized directory and the
consistency marker are indeed left untouched.  The claim (and the repo's
own test `test_recover_from_network_failure`, which expects the updater to
reach the failed state when extraction dies mid-download) requires `Failed`
to be published and no exception to escape; the loop in `main` has no
handler around `download_update`, so the process dies instead. -/
theorem cycle_extract_failure_crashes :
    (cycle envExtractFail paramsEmpty fsFresh).crashed = true ∧
    (cycle envExtractFail paramsEmpty fsFresh).pubs =
      [set_status_params_default UpdaterState.CHECKING,
       set_status_params UpdaterState.IDLE true false,
       set_status_params_default UpdaterState.DOWNLOADING] ∧
    UpdaterState.FAILED ∉ (cycle envExtractFail paramsEmpty fsFresh).pubs.map Publish.state ∧
    (cycle envExtractFail paramsEmpty fsFresh).fs.finalized = fsFresh.finalized ∧
    get_consistent_flag (cycle envExtractFail paramsEmpty fsFresh).fs =
      get_consistent_flag fsFresh := by
  decide

/- ### Claim C7 -/

/-- The manifest-entry test of `download_update` line 106: the entry has a
`type` key equal to `"path"` and its `path` equals the installation root. -/
def entry_matches (e : ManifestEntry) : Bool :=
  e.type == some "path" && e.path == some "/data/openpilot"

/-- The extract call a manifest entry gives rise to (`none` for entries the
loop skips). -/
def entry_call (e : ManifestEntry) : Option ExtractCall :=
  if entry_matches e then
    e.caidx.map (fun c => { caidx := c, dest := CASYNC_PATH, seed := BASEDIR })
  else none

/-- Characterization of the manifest loop under a well-formed manifest
(every `path`-typed entry has its `path` key, and matching entries have a
`caidx` and a succeeding extract): the loop succeeds, issues exactly the
matching entries' calls in order, never touches the finalized directory or
the temp-dir flag, keeps the staging directory existing, and leaves the
filesystem untouched when no entry matches. -/
theorem run_manifest_characterization (er : ExtractCall → Option DirTree)
    (l : List ManifestEntry) :
    ∀ (fs : Fs) (acc : List ExtractCall),
    (∀ e ∈ l, e.type = some "path" →
      e.path.isSome ∧
      (e.path = some "/data/openpilot" →
        ∃ c, e.caidx = some c ∧
          (er { caidx := c, dest := CASYNC_PATH, seed := BASEDIR }).isSome)) →
    (run_manifest er l fs acc).ok = true ∧
    (run_manifest er l fs acc).calls = acc ++ l.filterMap entry_call ∧
    (run_manifest er l fs acc).fs.finalized = fs.finalized ∧
    (run_manifest er l fs acc).fs.casyncTmp = fs.casyncTmp ∧
    (fs.casyncPath.isSome = true → (run_manifest er l fs acc).fs.casyncPath.isSome = true) ∧
    (l.filterMap entry_call = [] → (run_manifest er l fs acc).fs = fs) := by
  induction l with
  | nil => intro fs acc _; simp [run_manifest]
  | cons e rest ih =>
    intro fs acc hwf
    have he := hwf e (by simp)
    have hrest : ∀ e' ∈ rest, e'.type = some "path" →
        e'.path.isSome ∧
        (e'.path = some "/data/openpilot" →
          ∃ c, e'.caidx = some c ∧
            (er { caidx := c, dest := CASYNC_PATH, seed := BASEDIR }).isSome) := by
      intro e' he' ht; exact hwf e' (by simp [he']) ht
    by_cases htype : e.type = some "path"
    · obtain ⟨hpath, hmain⟩ := he htype
      obtain ⟨p, hp⟩ := Option.isSome_iff_exists.mp hpath
      by_cases hroot : p = "/data/openpilot"
      · subst hroot
        obtain ⟨c, hc, hersome⟩ := hmain hp
        obtain ⟨t, ht⟩ := Option.isSome_iff_exists.mp hersome
        have := ih { fs with casyncPath := some t }
          (acc ++ [{ caidx := c, dest := CASYNC_PATH, seed := BASEDIR }]) hrest
        simp [run_manifest, htype, hp, hc, ht, entry_call, entry_matches] at this ⊢
        simp_all
      · have := ih fs acc hrest
        simp [run_manifest, htype, hp, hroot, entry_call, entry_matches] at this ⊢
        simp_all
    · have := ih fs acc hrest
      simp [run_manifest, htype, entry_call, entry_matches] at this ⊢
      simp_all

/-- Concrete fixture for claim C7: stale content left in the staging
directory by an earlier attempt. -/
def fsStale : Fs :=
  { finalized := none
    casyncPath := some { metadata := none, payload := ["stale_file"] }
    casyncTmp := true }

/-- Counterexample to claim C7 as stated: `download_update` never clears
the staging destination — `CASYNC_PATH.mkdir(exist_ok=True)` keeps existing
contents — so on a manifest with no matching entries the stale file
survives verbatim (and in particular the destination is not the cleared,
empty directory the claim requires). -/
theorem download_update_does_not_clear_staging :
    (download_update (fun _ => none) [] fsStale).ok = true ∧
    (download_update (fun _ => none) [] fsStale).fs.casyncPath =
      some { metadata := none, payload := ["stale_file"] } ∧
    (download_update (fun _ => none) [] fsStale).fs.casyncPath ≠ some emptyTree := by
  decide

/-- Claim C7 as amended: `download_update` ensures the staging destination
and the casync temp directory exist (without clearing pre-existing
contents) and invokes `casync extract` exactly for the manifest entries
whose `type` is `"path"` and whose `path` is the installation root
`/data/openpilot`, seeding each call from the running installation
directory; entries of any other type or path cause no extraction, and the
finalized directory is never touched. -/
theorem download_update_extracts_matching_entries (er : ExtractCall → Option DirTree)
    (manifest : List ManifestEntry) (fs : Fs)
    (hwf : ∀ e ∈ manifest, e.type = some "path" →
      e.path.isSome ∧
      (e.path = some "/data/openpilot" →
        ∃ c, e.caidx = some c ∧
          (er { caidx := c, dest := CASYNC_PATH, seed := BASEDIR }).isSome)) :
    (download_update er manifest fs).ok = true ∧
    (download_update er manifest fs).calls = manifest.filterMap entry_call ∧
    (download_update er manifest fs).fs.finalized = fs.finalized ∧
    (download_update er manifest fs).fs.casyncTmp = true ∧
    (download_update er manifest fs).fs.casyncPath.isSome = true ∧
    (manifest.filterMap entry_call = [] →
      (download_update er manifest fs).fs.casyncPath = some (fs.casyncPath.getD emptyTree)) := by
  have h := run_manifest_characterization er manifest
    { fs with casyncTmp := true, casyncPath := some (fs.casyncPath.getD emptyTree) } [] hwf
  obtain ⟨h1, h2, h3, h4, h5, h6⟩ := h
  refine ⟨h1, by simpa using h2, by simpa using h3, by simpa using h4,
    by simpa using h5, fun hemp => ?_⟩
  have := h6 hemp
  simp [download_update, this]

/-- Concrete fixture: a manifest entry of a type the updater ignores. -/
def entryOther : ManifestEntry := { type := some "firmware", path := none, caidx := none }

/-- Witness for the amended claim C7 at a concrete input: a two-entry
manifest (one root `path` entry, one entry of another type) on a stale
staging directory issues exactly the root entry's extract call. -/
theorem download_update_extracts_matching_entries_witness :
    (download_update (fun _ => some treeRemote) [entryRoot, entryOther] fsStale).ok = true ∧
    (download_update (fun _ => some treeRemote) [entryRoot, entryOther] fsStale).calls =
      [entryRoot, entryOther].filterMap entry_call ∧
    (download_update (fun _ => some treeRemote) [entryRoot, entryOther] fsStale).fs.finalized =
      fsStale.finalized ∧
    (download_update (fun _ => some treeRemote) [entryRoot, entryOther] fsStale).fs.casyncTmp = true ∧
    (download_update (fun _ => some treeRemote) [entryRoot, entryOther] fsStale).fs.casyncPath.isSome
      = true ∧
    ([entryRoot, entryOther].filterMap entry_call = [] →
      (download_update (fun _ => some treeRemote) [entryRoot, entryOther] fsStale).fs.casyncPath =
        some (fsStale.casyncPath.getD emptyTree)) :=
  download_update_extracts_matching_entries (fun _ => some treeRemote) [entryRoot, entryOther]
    fsStale (by
      intro e he ht
      simp only [List.mem_cons, List.not_mem_nil, or_false] at he
      rcases he with rfl | rfl
      · exact ⟨by decide, fun _ => ⟨"release3.caidx", by decide, by decide⟩⟩
      · simp [entryOther] at ht)
